import Mathlib

/-!
Verification of the Immortal Stack webhook server, a small Express/Node.js
application that receives GitHub and MAKE.com webhook notifications, verifies
them (HMAC signature respectively shared-secret header), routes them by event
type, and forwards derived task records to the ClickUp API.

The development shallowly embeds the JavaScript source:
pure string manipulation becomes functions over `List Char`; `Buffer.from`
becomes UTF-8 byte lists over `Nat`; code that can throw returns `Except`;
the external HMAC-SHA256 primitive from the `crypto` module is a function
parameter (its output is a 64-character hex digest); the external HTTP call
made by `axios.post` is a function parameter returning `Except`.
Environment variables that may be unset are `Option String`, and the
JavaScript falsiness test `!x` (false for both `undefined` and the empty
string) is made explicit.
-/

namespace ImmortalStack

deriving instance DecidableEq for Except

/-- JS falsiness check for a string-or-undefined value: `!x` is true exactly
when `x` is `undefined` or the empty string. `truthy x = true` means the
value is present and non-empty. -/
def truthy : Option String → Bool
  | none => false
  | some s => if s = "" then false else true

/-- JS `x || d` for a string-or-undefined `x`: the default `d` is used when
`x` is falsy (absent or empty). -/
def orFalsy (x : Option String) (d : String) : String :=
  if truthy x then x.getD "" else d

/-- Embeds JS `String.prototype.toLowerCase` (ASCII range; sufficient for the
keyword comparisons made by the handlers). -/
def jsToLower (s : String) : String :=
  ⟨s.data.map Char.toLower⟩

/-- If the pattern is a prefix of the character list, drop it and return the
remainder; otherwise `none`. -/
def dropMatch : List Char → List Char → Option (List Char)
  | [], rest => some rest
  | _ :: _, [] => none
  | p :: ps, c :: cs => if c = p then dropMatch ps cs else none

/-- Does the needle occur as a contiguous substring of the haystack? -/
def charsContain (needle : List Char) : List Char → Bool
  | [] => (dropMatch needle []).isSome
  | c :: cs => (dropMatch needle (c :: cs)).isSome || charsContain needle cs

/-- Embeds JS `s.includes(sub)`: substring containment. -/
def jsIncludes (s sub : String) : Bool :=
  charsContain sub.data s.data

/-- Replace the first occurrence of `pat` by `repl`, as JS
`String.prototype.replace` does with a string pattern. -/
def replaceFirstChars (pat repl : List Char) : List Char → List Char
  | [] =>
    match dropMatch pat [] with
    | some rest => repl ++ rest
    | none => []
  | c :: cs =>
    match dropMatch pat (c :: cs) with
    | some rest => repl ++ rest
    | none => c :: replaceFirstChars pat repl cs

/-- Embeds JS `s.replace(pat, repl)` (string pattern: first occurrence only). -/
def jsReplaceFirst (s pat repl : String) : String :=
  ⟨replaceFirstChars pat.data repl.data s.data⟩

/-- Embeds JS `s.split('\n')[0]`: the text before the first newline. -/
def firstLine (s : String) : String :=
  ⟨s.data.takeWhile (fun c => c != '\n')⟩

/-- Embeds JS `arr.join(sep)`. -/
def joinSep (sep : String) : List String → String
  | [] => ""
  | [s] => s
  | s :: rest => s ++ sep ++ joinSep sep rest

/-- UTF-8 encoding of a single character as a list of byte values,
as `Buffer.from(string)` produces in Node.js. -/
def encodeChar (c : Char) : List Nat :=
  let n := c.toNat
  if n < 128 then [n]
  else if n < 2048 then [192 + n / 64, 128 + n % 64]
  else if n < 65536 then [224 + n / 4096, 128 + (n / 64) % 64, 128 + n % 64]
  else [240 + n / 262144, 128 + (n / 4096) % 64, 128 + (n / 64) % 64, 128 + n % 64]

/-- The UTF-8 bytes of a string, as `Buffer.from(s)` produces. -/
def strBytes (s : String) : List Nat :=
  s.data.flatMap encodeChar

/-- The exception thrown by Node `crypto.timingSafeEqual` when the two
buffers have different byte lengths (`ERR_CRYPTO_TIMING_SAFE_EQUAL_LENGTH`). -/
inductive CryptoError where
  | lengthMismatch
deriving DecidableEq

/-- Embeds Node `crypto.timingSafeEqual(Buffer.from(a), Buffer.from(b))`:
throws when the byte lengths differ, otherwise reports byte equality. -/
def timingSafeEqual (a b : List Nat) : Except CryptoError Bool :=
  if a.length = b.length then .ok (decide (a = b)) else .error .lengthMismatch

/-- Embeds `verifyGithubSignature` from routes/github.js. The external
`crypto.createHmac('sha256', secret).update(payload).digest('hex')` pipeline
is the parameter `hmacSha256Hex` (secret, then message, to lowercase hex).
`githubWebhookSecret` is the `GITHUB_WEBHOOK_SECRET` environment variable,
`sigHeader` the `x-hub-signature-256` request header, and `payload` the
`JSON.stringify(req.body)` serialization of the request body. -/
def verifyGithubSignature (hmacSha256Hex : String → String → String)
    (githubWebhookSecret : Option String) (sigHeader : Option String)
    (payload : String) : Except CryptoError Bool :=
  if truthy githubWebhookSecret = false then
    .ok true
  else if truthy sigHeader = false then
    .ok false
  else
    let digest := "sha256=" ++ hmacSha256Hex (githubWebhookSecret.getD "") payload
    timingSafeEqual (strBytes (sigHeader.getD "")) (strBytes digest)

/-- Outcome of the authentication middleware: either an early JSON error
response with the given HTTP status, or `next()` is called. -/
inductive AuthResult where
  | reject (status : Nat) (message : String)
  | proceed
deriving DecidableEq

/-- Embeds `authenticateWebhook` from middleware/auth.js. `authToken` is the
`x-webhook-token` request header; `makeWebhookSecret` is the
`MAKE_WEBHOOK_SECRET` environment variable. The JS guard `if (!authToken)`
fires for an absent header and for an empty header value alike. -/
def authenticateWebhook (authToken makeWebhookSecret : Option String) : AuthResult :=
  if truthy authToken = false then
    .reject 401 "Authentication token missing"
  else if authToken = makeWebhookSecret then
    .proceed
  else
    .reject 403 "Invalid authentication token"

/-! ## GitHub payloads and the ClickUp task client -/

structure Repository where
  full_name : String
  name : String
deriving DecidableEq

structure CommitAuthor where
  name : String
deriving DecidableEq

structure Commit where
  id : String
  message : String
  author : CommitAuthor
  added : List String
  modified : List String
  removed : List String
  url : String
deriving DecidableEq

structure PushPayload where
  repository : Repository
  commits : List Commit
  ref : String
deriving DecidableEq

structure GithubUser where
  login : String
deriving DecidableEq

structure PullRequestBase where
  ref : String
deriving DecidableEq

structure PullRequest where
  number : Nat
  title : String
  user : GithubUser
  body : Option String
  base : PullRequestBase
  changed_files : Nat
  additions : Nat
  deletions : Nat
  html_url : String
deriving DecidableEq

structure PullRequestPayload where
  action : String
  pull_request : PullRequest
  repository : Repository
deriving DecidableEq

structure IssueLabel where
  name : String
deriving DecidableEq

structure Issue where
  number : Nat
  title : String
  user : GithubUser
  body : Option String
  labels : List IssueLabel
  html_url : String
deriving DecidableEq

structure IssuesPayload where
  action : String
  issue : Issue
  repository : Repository
deriving DecidableEq

/-- The `CLICKUP_LISTS` configuration object of handlers/githubHandler.js;
each field is an environment variable that may be unset. -/
structure ClickUpLists where
  DEV_BACKLOG : Option String
  CODE_REVIEWS : Option String
  TODO : Option String
deriving DecidableEq

/-- The argument object passed to `createClickUpTask` by the handlers. -/
structure ClickUpTask where
  name : String
  description : String
  listId : Option String
  tags : List String
deriving DecidableEq

def CLICKUP_API_URL : String := "https://api.clickup.com/api/v2"

/-- The outbound HTTP request issued by `axios.post` in `createClickUpTask`. -/
structure ClickUpRequest where
  url : String
  authToken : String
  name : String
  description : String
  tags : List String
deriving DecidableEq

/-- The `response.data` object returned by the ClickUp API on success. -/
structure ClickUpResponse where
  id : String
deriving DecidableEq

/-- An axios error: `message`, and `error.response.data` when the API
returned a structured error body. -/
structure ApiError where
  message : String
  responseData : Option String
deriving DecidableEq

/-- The request that `createClickUpTask` builds for a task. -/
def mkClickUpRequest (clickUpApiToken : Option String) (t : ClickUpTask) : ClickUpRequest :=
  { url := CLICKUP_API_URL ++ "/list/" ++ t.listId.getD "" ++ "/task"
    authToken := clickUpApiToken.getD ""
    name := t.name
    description := t.description
    tags := t.tags }

/-- Embeds `createClickUpTask` from handlers/githubHandler.js.
`clickUpApiToken` is the `CLICKUP_API_TOKEN` environment variable; `api` is
the external `axios.post` call. Returns the outbound requests issued (none
or one), the `console` log lines, and the result: `.ok` with the created
response (or `none` for the silent no-op paths), or the propagated error. -/
def createClickUpTask (clickUpApiToken : Option String)
    (api : ClickUpRequest → Except ApiError ClickUpResponse) (t : ClickUpTask) :
    List ClickUpRequest × List String × Except ApiError (Option ClickUpResponse) :=
  if truthy clickUpApiToken = false then
    ([], ["ClickUp integration not configured (missing API token)"], .ok none)
  else if truthy t.listId = false then
    ([], ["ClickUp list ID not configured"], .ok none)
  else
    let req := mkClickUpRequest clickUpApiToken t
    match api req with
    | .ok resp =>
      ([req], ["Created ClickUp task: " ++ resp.id ++ " - " ++ t.name], .ok (some resp))
    | .error e =>
      ([req],
        ("Error creating ClickUp task: " ++ e.message) ::
          (match e.responseData with
           | some d => ["ClickUp API response: " ++ d]
           | none => []),
        .error e)

/-- Runs the sequence of awaited `createClickUpTask` calls a handler makes,
in order, stopping at the first thrown error (as the `await` inside the
handler loop does). Returns all outbound requests issued and the final
outcome. -/
def runTasks (clickUpApiToken : Option String)
    (api : ClickUpRequest → Except ApiError ClickUpResponse) :
    List ClickUpTask → List ClickUpRequest × Except ApiError Unit
  | [] => ([], .ok ())
  | t :: ts =>
    match createClickUpTask clickUpApiToken api t with
    | (reqs, _, .ok _) =>
      let rest := runTasks clickUpApiToken api ts
      (reqs ++ rest.1, rest.2)
    | (reqs, _, .error e) => (reqs, .error e)

/-! ## Event handlers -/

/-- The test `commit.message.toLowerCase().includes('todo')` from
`handlePushEvent`. -/
def commitMentionsTodo (c : Commit) : Bool :=
  jsIncludes (jsToLower c.message) "todo"

/-- The task description template of `handlePushEvent`. -/
def pushTaskDescription (repo : Repository) (branch : String) (c : Commit) : String :=
  "\n# TODO from GitHub Commit\n\n**Repository:** " ++ repo.full_name ++
  "\n**Branch:** " ++ branch ++
  "\n**Commit:** " ++ c.id ++
  "\n**Author:** " ++ c.author.name ++
  "\n**Message:**\n```\n" ++ c.message ++ "\n```\n\n**Changes:**\n- Added: " ++
  toString c.added.length ++ " files\n- Modified: " ++
  toString c.modified.length ++ " files\n- Removed: " ++
  toString c.removed.length ++ " files\n\n**Commit URL:** " ++ c.url ++
  "\n        "

/-- Embeds `handlePushEvent`: the list of task records it forwards to
`createClickUpTask`, one per commit whose message mentions a TODO. -/
def handlePushEvent (lists : ClickUpLists) (data : PushPayload) : List ClickUpTask :=
  let branch := jsReplaceFirst data.ref "refs/heads/" ""
  data.commits.filterMap fun commit =>
    if commitMentionsTodo commit then
      some
        { name := "TODO from commit: " ++ firstLine commit.message
          description := pushTaskDescription data.repository branch commit
          listId := lists.TODO
          tags := ["github", "todo", "commit"] }
    else none

/-- The task description template of `handlePullRequestEvent`. -/
def prTaskDescription (data : PullRequestPayload) : String :=
  "\n# Pull Request Review\n\n**Repository:** " ++ data.repository.full_name ++
  "\n**PR Number:** #" ++ toString data.pull_request.number ++
  "\n**Title:** " ++ data.pull_request.title ++
  "\n**Author:** " ++ data.pull_request.user.login ++
  "\n\n**Description:**\n" ++ orFalsy data.pull_request.body "No description provided" ++
  "\n\n**Changes:**\n- " ++ toString data.pull_request.changed_files ++
  " files changed\n- " ++ toString data.pull_request.additions ++
  " additions\n- " ++ toString data.pull_request.deletions ++
  " deletions\n\n**PR URL:** " ++ data.pull_request.html_url ++ "\n    "

/-- Embeds `handlePullRequestEvent`: at most one task record, produced only
for `opened`/`reopened` actions targeting the main or master branch. -/
def handlePullRequestEvent (lists : ClickUpLists) (data : PullRequestPayload) :
    List ClickUpTask :=
  if data.action ≠ "opened" ∧ data.action ≠ "reopened" then []
  else if data.pull_request.base.ref ≠ "main" ∧ data.pull_request.base.ref ≠ "master" then []
  else
    [{ name := "Review PR #" ++ toString data.pull_request.number ++ ": " ++
          data.pull_request.title
       description := prTaskDescription data
       listId := lists.CODE_REVIEWS
       tags := ["github", "pull-request", data.repository.name] }]

/-- The test `issue.labels.some(...)` from `handleIssuesEvent`. -/
def issueHasStackLabel (issue : Issue) : Bool :=
  issue.labels.any fun label =>
    decide (jsToLower label.name = "stack" ∨ jsToLower label.name = "immortal-stack")

/-- The task description template of `handleIssuesEvent`. -/
def issueTaskDescription (data : IssuesPayload) : String :=
  "\n# GitHub Issue\n\n**Repository:** " ++ data.repository.full_name ++
  "\n**Issue Number:** #" ++ toString data.issue.number ++
  "\n**Title:** " ++ data.issue.title ++
  "\n**Author:** " ++ data.issue.user.login ++
  "\n\n**Description:**\n" ++ orFalsy data.issue.body "No description provided" ++
  "\n\n**Labels:** " ++ joinSep ", " (data.issue.labels.map IssueLabel.name) ++
  "\n\n**Issue URL:** " ++ data.issue.html_url ++ "\n    "

/-- Embeds `handleIssuesEvent`: at most one task record, produced only for
`opened`/`reopened` actions on issues carrying a stack label. -/
def handleIssuesEvent (lists : ClickUpLists) (data : IssuesPayload) : List ClickUpTask :=
  if data.action ≠ "opened" ∧ data.action ≠ "reopened" then []
  else if issueHasStackLabel data.issue = false then []
  else
    [{ name := "GitHub Issue #" ++ toString data.issue.number ++ ": " ++ data.issue.title
       description := issueTaskDescription data
       listId := lists.DEV_BACKLOG
       tags := ["github", "issue", data.repository.name] }]

/-! ## Event dispatch and routes -/

/-- A GitHub webhook payload, typed by the event it belongs to. The route
dispatches only on the `x-github-event` header; a payload that does not have
the shape the selected handler expects is outside the scope of this
development (the claims always pair header and payload consistently). -/
inductive GithubPayload where
  | push (p : PushPayload)
  | pullRequest (p : PullRequestPayload)
  | issues (p : IssuesPayload)
  | other
deriving DecidableEq

/-- The `switch (eventType)` dispatch of `processGithubEvent`: which task
records the selected handler forwards to the task client. Event types other
than push, pull_request and issues are logged and ignored. -/
def dispatchGithubEvent (lists : ClickUpLists) (eventType : String)
    (payload : GithubPayload) : List ClickUpTask :=
  if eventType = "push" then
    match payload with
    | .push p => handlePushEvent lists p
    | _ => []
  else if eventType = "pull_request" then
    match payload with
    | .pullRequest p => handlePullRequestEvent lists p
    | _ => []
  else if eventType = "issues" then
    match payload with
    | .issues p => handleIssuesEvent lists p
    | _ => []
  else []

/-- The MongoDB logging placeholder of handlers/githubHandler.js: performs
no storage. -/
def logEventToMongoDB (_data : GithubPayload) (_eventType : String) : Unit := ()

/-- The `{status, message}` object returned by `processGithubEvent`. -/
structure ProcessResult where
  status : String
  message : String
deriving DecidableEq

/-- Embeds `processGithubEvent`: dispatches to the handler, runs the awaited
task-client calls, and catches any thrown error, converting it into an
error-status result (the function itself never throws). -/
def processGithubEvent (clickUpApiToken : Option String) (lists : ClickUpLists)
    (api : ClickUpRequest → Except ApiError ClickUpResponse)
    (eventType : String) (payload : GithubPayload) :
    List ClickUpRequest × ProcessResult :=
  let tasks := dispatchGithubEvent lists eventType payload
  let r := runTasks clickUpApiToken api tasks
  let _ := logEventToMongoDB payload eventType
  match r.2 with
  | .ok _ =>
    (r.1, { status := "success"
            message := "GitHub " ++ eventType ++ " event processed successfully" })
  | .error e =>
    (r.1, { status := "error"
            message := "Error processing GitHub event: " ++ e.message })

/-- An HTTP response sent by a route: status code, the `status` field of the
JSON body, and the `message` field. -/
structure RouteResponse where
  status : Nat
  bodyStatus : String
  message : String
deriving DecidableEq

/-- Embeds the `POST /webhook` route of routes/github.js. The signature
verification call sits outside the try/catch; an exception it throws
escapes the route handler, which the `.error` result models. After a failed
verification the route answers 401; otherwise it always answers 200, with
the status field reported by `processGithubEvent`. Also returns the
outbound ClickUp requests issued while processing. -/
def githubWebhookRoute (hmacSha256Hex : String → String → String)
    (githubWebhookSecret clickUpApiToken : Option String) (lists : ClickUpLists)
    (api : ClickUpRequest → Except ApiError ClickUpResponse)
    (sigHeader : Option String) (rawBody : String) (eventType : String)
    (payload : GithubPayload) :
    Except CryptoError (RouteResponse × List ClickUpRequest) :=
  match verifyGithubSignature hmacSha256Hex githubWebhookSecret sigHeader rawBody with
  | .error e => .error e
  | .ok false =>
    .ok ({ status := 401, bodyStatus := "error", message := "Invalid signature" }, [])
  | .ok true =>
    let pr := processGithubEvent clickUpApiToken lists api eventType payload
    .ok ({ status := 200, bodyStatus := pr.2.status, message := pr.2.message }, pr.1)

/-- An error thrown by one of the MAKE.com scenario handlers (external stubs
with no behavior defined in the repository). -/
structure JsError where
  message : String
deriving DecidableEq

/-- Embeds the `POST /make/:scenarioId` route of routes/webhooks.js, gated
by `authenticateWebhook`. `scenarioOutcome` is the outcome of the dispatched
scenario handler call (the handlers are external stubs). The second
component records whether the scenario router body ran at all. -/
def makeWebhookRoute (authToken makeWebhookSecret : Option String)
    (_scenarioId : String) (scenarioOutcome : Except JsError Unit) :
    RouteResponse × Bool :=
  match authenticateWebhook authToken makeWebhookSecret with
  | .reject s m => ({ status := s, bodyStatus := "error", message := m }, false)
  | .proceed =>
    match scenarioOutcome with
    | .ok _ =>
      ({ status := 200, bodyStatus := "success", message := "Webhook received successfully" },
        true)
    | .error _ =>
      ({ status := 200, bodyStatus := "error", message := "Webhook received but processing failed" },
        true)

/-- Models the generic error-handling middleware of server.js together with
the Express framework behavior it relies on: an error that escapes a route
handler is answered with a 500 response. -/
def serverHandle (routeResult : Except CryptoError (RouteResponse × List ClickUpRequest)) :
    RouteResponse :=
  match routeResult with
  | .ok (resp, _) => resp
  | .error _ =>
    { status := 500, bodyStatus := "error", message := "An internal server error occurred" }

/-! ## Concrete instances used to exercise the theorems -/

/-- A stand-in for the external HMAC-SHA256 hex pipeline with the interface
shape the verifier relies on (a 64-character ASCII output for every input),
used to instantiate the theorems at concrete inputs. -/
def toyMacHex (key msg : String) : String :=
  if key = "s" ∧ msg = "b" then ⟨List.replicate 64 'f'⟩ else ⟨List.replicate 64 '0'⟩

/-- A single-byte mutation of the digest `"sha256=" ++ toyMacHex "s" "a"`:
byte 7 changed from the character 0 to the character 1. -/
def sigMut : String := "sha256=1" ++ ⟨List.replicate 63 '0'⟩

def sampleLists : ClickUpLists :=
  { DEV_BACKLOG := some "B", CODE_REVIEWS := some "R", TODO := some "T" }

def sampleApiOk : ClickUpRequest → Except ApiError ClickUpResponse :=
  fun _ => .ok { id := "id1" }

def sampleApiErr : ClickUpRequest → Except ApiError ClickUpResponse :=
  fun _ => .error { message := "boom", responseData := none }

def sampleApiErrData : ClickUpRequest → Except ApiError ClickUpResponse :=
  fun _ => .error { message := "boom", responseData := some "detail" }

def sampleTaskA : ClickUpTask :=
  { name := "n", description := "d", listId := some "L", tags := ["x"] }

def sampleTaskB : ClickUpTask :=
  { name := "n", description := "d", listId := none, tags := [] }

def sampleRepo : Repository := { full_name := "org/repo", name := "repo" }

def sampleCommitTodo : Commit :=
  { id := "c1", message := "ToDo: fix bug", author := { name := "al" }
    added := ["a.js"], modified := [], removed := [], url := "u1" }

def sampleCommitPlain : Commit :=
  { id := "c2", message := "refactor", author := { name := "al" }
    added := [], modified := ["b.js"], removed := [], url := "u2" }

def samplePush : PushPayload :=
  { repository := sampleRepo, commits := [sampleCommitTodo, sampleCommitPlain]
    ref := "refs/heads/main" }

def samplePR (action baseRef : String) : PullRequestPayload :=
  { action := action
    pull_request :=
      { number := 7, title := "t", user := { login := "al" }, body := none
        base := { ref := baseRef }, changed_files := 1, additions := 2, deletions := 3
        html_url := "purl" }
    repository := sampleRepo }

def sampleIssue (action : String) (labelNames : List String) : IssuesPayload :=
  { action := action
    issue :=
      { number := 9, title := "i", user := { login := "al" }, body := some "d"
        labels := labelNames.map (fun n => { name := n }), html_url := "iurl" }
    repository := sampleRepo }

/-! ## Basic lemmas -/

theorem truthy_some_iff (s : String) : truthy (some s) = true ↔ s ≠ "" := by
  by_cases h : s = "" <;> simp [truthy, h]

theorem strBytes_append (s t : String) : strBytes (s ++ t) = strBytes s ++ strBytes t := by
  simp [strBytes, String.data_append]

theorem str_ne_empty_of_bytes_ne_nil (s : String) (h : strBytes s ≠ []) : s ≠ "" := by
  intro he
  exact h (by rw [he]; rfl)

theorem sha_prepend_ne_empty (h : String) : ("sha256=" ++ h) ≠ "" := by
  intro he
  have hd := congrArg String.data he
  rw [String.data_append] at hd
  have hlit : "sha256=".data = ['s', 'h', 'a', '2', '5', '6', '='] := rfl
  rw [hlit] at hd
  simp at hd

theorem strBytes_sha_len : (strBytes "sha256=").length = 7 := by decide

theorem timingSafeEqual_self (a : List Nat) : timingSafeEqual a a = .ok true := by
  simp [timingSafeEqual]

theorem timingSafeEqual_ne (a b : List Nat) (hlen : a.length = b.length) (hne : a ≠ b) :
    timingSafeEqual a b = .ok false := by
  simp [timingSafeEqual, hlen, hne]

theorem timingSafeEqual_len (a b : List Nat) (h : a.length ≠ b.length) :
    timingSafeEqual a b = .error .lengthMismatch := by
  simp [timingSafeEqual, h]

theorem set_ne_of_get (l : List Nat) (i b : Nat) (hi : i < l.length) (hb : l[i]? ≠ some b) :
    l.set i b ≠ l := by
  intro heq
  have h2 := List.getElem?_set_self (l := l) (i := i) (a := b) hi
  rw [heq] at h2
  exact hb h2

theorem verify_unfold (hmacSha256Hex : String → String → String) (sec : String)
    (hsec : sec ≠ "") (sig : String) (hsig : sig ≠ "") (body : String) :
    verifyGithubSignature hmacSha256Hex (some sec) (some sig) body =
      timingSafeEqual (strBytes sig) (strBytes ("sha256=" ++ hmacSha256Hex sec body)) := by
  have h1 : truthy (some sec) = true := (truthy_some_iff sec).mpr hsec
  have h2 : truthy (some sig) = true := (truthy_some_iff sig).mpr hsig
  simp [verifyGithubSignature, h1, h2]

/-! ## Claims about the signature verifier -/

/-- C1: with a configured secret, a signature header equal to
`sha256=` followed by the hex HMAC-SHA256 of the serialized body verifies
as true; a single-byte mutation of the signature value verifies as false;
and a single-byte mutation of the body verifies as false, given that the
digests of the original and mutated bodies differ (the standard
second-preimage property of HMAC on this pair, not decidable inside the
embedding). The digest-length hypothesis is the contract of
`crypto.digest('hex')` for SHA-256. -/
theorem github_signature_verifier_correct (hmacSha256Hex : String → String → String)
    (sec body : String) (hsec : sec ≠ "")
    (hlen : ∀ s m, (strBytes (hmacSha256Hex s m)).length = 64) :
    verifyGithubSignature hmacSha256Hex (some sec)
        (some ("sha256=" ++ hmacSha256Hex sec body)) body = .ok true
    ∧ (∀ (sig : String) (i b : Nat),
        strBytes sig = (strBytes ("sha256=" ++ hmacSha256Hex sec body)).set i b →
        i < (strBytes ("sha256=" ++ hmacSha256Hex sec body)).length →
        (strBytes ("sha256=" ++ hmacSha256Hex sec body))[i]? ≠ some b →
        verifyGithubSignature hmacSha256Hex (some sec) (some sig) body = .ok false)
    ∧ (∀ (body2 : String) (i b : Nat),
        strBytes body2 = (strBytes body).set i b →
        i < (strBytes body).length →
        (strBytes body)[i]? ≠ some b →
        strBytes (hmacSha256Hex sec body2) ≠ strBytes (hmacSha256Hex sec body) →
        verifyGithubSignature hmacSha256Hex (some sec)
          (some ("sha256=" ++ hmacSha256Hex sec body)) body2 = .ok false) := by
  have hgoodlen : (strBytes ("sha256=" ++ hmacSha256Hex sec body)).length = 71 := by
    rw [strBytes_append, List.length_append, strBytes_sha_len, hlen]
  refine ⟨?_, ?_, ?_⟩
  · rw [verify_unfold hmacSha256Hex sec hsec _ (sha_prepend_ne_empty _) body]
    exact timingSafeEqual_self _
  · intro sig i b hset hi hb
    have hlensig : (strBytes sig).length =
        (strBytes ("sha256=" ++ hmacSha256Hex sec body)).length := by
      rw [hset, List.length_set]
    have hnonnil : strBytes sig ≠ [] := by
      intro h0
      have hl := congrArg List.length h0
      rw [hlensig, hgoodlen] at hl
      simp at hl
    rw [verify_unfold hmacSha256Hex sec hsec _ (str_ne_empty_of_bytes_ne_nil _ hnonnil) body]
    apply timingSafeEqual_ne _ _ hlensig
    rw [hset]
    exact set_ne_of_get _ _ _ hi hb
  · intro body2 i b _hset _hi _hb hcol
    rw [verify_unfold hmacSha256Hex sec hsec _ (sha_prepend_ne_empty _) body2]
    apply timingSafeEqual_ne
    · rw [strBytes_append, strBytes_append, List.length_append, List.length_append,
        hlen, hlen]
    · intro heq
      rw [strBytes_append, strBytes_append] at heq
      exact hcol (List.append_cancel_left heq).symm


theorem github_signature_verifier_correct_witness :
    verifyGithubSignature toyMacHex (some "s")
        (some ("sha256=" ++ toyMacHex "s" "a")) "a" = .ok true
    ∧ verifyGithubSignature toyMacHex (some "s") (some sigMut) "a" = .ok false
    ∧ verifyGithubSignature toyMacHex (some "s")
        (some ("sha256=" ++ toyMacHex "s" "a")) "b" = .ok false := by
  have hlen : ∀ s m, (strBytes (toyMacHex s m)).length = 64 := by
    intro s m
    unfold toyMacHex
    split <;> decide
  have h := github_signature_verifier_correct toyMacHex "s" "a" (by decide) hlen
  exact ⟨h.1, h.2.1 sigMut 7 49 (by decide) (by decide) (by decide),
    h.2.2 "b" 0 98 (by decide) (by decide) (by decide) (by decide)⟩

/-- C2: with no configured signing secret (unset environment variable, or
an empty one, which the JS falsiness test treats the same way), the
verifier returns true whatever the body and whatever the signature header
holds, or whether it is present at all. -/
theorem github_signature_no_secret_bypass (hmacSha256Hex : String → String → String)
    (githubWebhookSecret sigHeader : Option String) (payload : String)
    (h : truthy githubWebhookSecret = false) :
    verifyGithubSignature hmacSha256Hex githubWebhookSecret sigHeader payload = .ok true := by
  simp [verifyGithubSignature, h]

theorem github_signature_no_secret_bypass_witness :
    truthy none = false
    ∧ verifyGithubSignature toyMacHex none (some "junk") "x" = .ok true
    ∧ verifyGithubSignature toyMacHex none none "x" = .ok true :=
  ⟨rfl, github_signature_no_secret_bypass toyMacHex none (some "junk") "x" rfl,
    github_signature_no_secret_bypass toyMacHex none none "x" rfl⟩

/-- C8: with a configured (non-empty) secret and no signature header, the
verifier returns false; in particular it returns a value rather than
throwing (the result is an `Except.ok`). -/
theorem github_signature_missing_header (hmacSha256Hex : String → String → String)
    (sec payload : String) (hsec : sec ≠ "") :
    verifyGithubSignature hmacSha256Hex (some sec) none payload = .ok false := by
  have h1 : truthy (some sec) = true := (truthy_some_iff sec).mpr hsec
  have h2 : truthy (none : Option String) = false := rfl
  simp [verifyGithubSignature, h1, h2]

theorem github_signature_missing_header_witness :
    ("s" : String) ≠ ""
    ∧ verifyGithubSignature toyMacHex (some "s") none "x" = .ok false :=
  ⟨by decide, github_signature_missing_header toyMacHex "s" "x" (by decide)⟩

/-! ## Lemmas about the task pipeline -/

theorem length_filterMap_if {α β : Type} (pred : α → Bool) (f : α → β) (l : List α) :
    (l.filterMap (fun c => if pred c then some (f c) else none)).length =
      (l.filter pred).length := by
  induction l with
  | nil => rfl
  | cons a as ih =>
    by_cases h : pred a = true <;>
      simp [List.filterMap_cons, List.filter_cons, h, ih]

theorem runTasks_all_ok (clickUpApiToken : Option String)
    (api : ClickUpRequest → Except ApiError ClickUpResponse)
    (htok : truthy clickUpApiToken = true)
    (hapi : ∀ r, ∃ resp, api r = .ok resp) :
    ∀ ts : List ClickUpTask, (∀ t ∈ ts, truthy t.listId = true) →
      (runTasks clickUpApiToken api ts).1.length = ts.length
      ∧ (runTasks clickUpApiToken api ts).2 = .ok () := by
  intro ts
  induction ts with
  | nil => intro _; exact ⟨rfl, rfl⟩
  | cons t ts ih =>
    intro hall
    have hl : truthy t.listId = true := hall t (List.mem_cons_self t ts)
    obtain ⟨resp, hresp⟩ := hapi (mkClickUpRequest clickUpApiToken t)
    have hcreate : createClickUpTask clickUpApiToken api t =
        ([mkClickUpRequest clickUpApiToken t],
          ["Created ClickUp task: " ++ resp.id ++ " - " ++ t.name], .ok (some resp)) := by
      simp [createClickUpTask, htok, hl, hresp]
    have ihh := ih (fun x hx => hall x (List.mem_cons_of_mem _ hx))
    constructor
    · simp [runTasks, hcreate, ihh.1]
    · simp [runTasks, hcreate, ihh.2]

theorem runTasks_single_req (clickUpApiToken : Option String)
    (api : ClickUpRequest → Except ApiError ClickUpResponse) (t : ClickUpTask)
    (htok : truthy clickUpApiToken = true) (hl : truthy t.listId = true)
    (hapi : ∀ r, ∃ resp, api r = .ok resp) :
    (runTasks clickUpApiToken api [t]).1.length = 1 := by
  have h := runTasks_all_ok clickUpApiToken api htok hapi [t]
    (by intro x hx; simp at hx; subst hx; exact hl)
  simpa using h.1

theorem issueHasStackLabel_iff (issue : Issue) :
    issueHasStackLabel issue = true ↔
      ∃ l ∈ issue.labels,
        jsToLower l.name = "stack" ∨ jsToLower l.name = "immortal-stack" := by
  simp [issueHasStackLabel, List.any_eq_true]

/-! ## Claims about the event handlers -/

/-- C3: for a push event, the push handler forwards exactly one task record
per commit whose lower-cased message contains the substring "todo", each
tagged `[github, todo, commit]` and destined for the TODO list; with the
task client configured and an always-succeeding external API, exactly that
many outbound ClickUp calls are issued and no error is thrown. -/
theorem push_handler_todo_tasks (lists : ClickUpLists) (clickUpApiToken : Option String)
    (api : ClickUpRequest → Except ApiError ClickUpResponse) (p : PushPayload)
    (htok : truthy clickUpApiToken = true) (hlist : truthy lists.TODO = true)
    (hapi : ∀ r, ∃ resp, api r = .ok resp) :
    (handlePushEvent lists p).length = (p.commits.filter commitMentionsTodo).length
    ∧ (∀ t ∈ handlePushEvent lists p,
        t.tags = ["github", "todo", "commit"] ∧ t.listId = lists.TODO)
    ∧ (runTasks clickUpApiToken api (handlePushEvent lists p)).1.length =
        (p.commits.filter commitMentionsTodo).length
    ∧ (runTasks clickUpApiToken api (handlePushEvent lists p)).2 = .ok () := by
  have hmem : ∀ t ∈ handlePushEvent lists p,
      t.tags = ["github", "todo", "commit"] ∧ t.listId = lists.TODO := by
    intro t ht
    simp only [handlePushEvent] at ht
    rw [List.mem_filterMap] at ht
    obtain ⟨c, _hc, hfc⟩ := ht
    by_cases h : commitMentionsTodo c = true
    · simp only [h, if_true] at hfc
      cases hfc
      exact ⟨rfl, rfl⟩
    · simp [h] at hfc
  have hlen : (handlePushEvent lists p).length =
      (p.commits.filter commitMentionsTodo).length := by
    simp only [handlePushEvent]
    exact length_filterMap_if _ _ _
  have hrun := runTasks_all_ok clickUpApiToken api htok hapi (handlePushEvent lists p)
      (fun t ht => by rw [(hmem t ht).2]; exact hlist)
  exact ⟨hlen, hmem, by rw [hrun.1, hlen], hrun.2⟩

theorem push_handler_todo_tasks_witness :
    truthy (some "tok") = true ∧ truthy sampleLists.TODO = true
    ∧ (handlePushEvent sampleLists samplePush).length = 1
    ∧ (runTasks (some "tok") sampleApiOk (handlePushEvent sampleLists samplePush)).1.length = 1
    ∧ (runTasks (some "tok") sampleApiOk (handlePushEvent sampleLists samplePush)).2 = .ok () := by
  have h := push_handler_todo_tasks sampleLists (some "tok") sampleApiOk samplePush
      (by decide) (by decide) (fun r => ⟨{ id := "id1" }, rfl⟩)
  refine ⟨by decide, by decide, ?_, ?_, h.2.2.2⟩
  · rw [h.1]; decide
  · rw [h.2.2.1]; decide

/-- C4: for a pull_request event with action opened or reopened, a base
branch other than main/master yields no task record, while main or master
yields exactly one, tagged `[github, pull-request, <repo name>]` and
destined for the code-reviews list (one outbound call when the client is
configured and the API succeeds); any other action yields no task record. -/
theorem pull_request_handler_main_master_only (lists : ClickUpLists)
    (clickUpApiToken : Option String)
    (api : ClickUpRequest → Except ApiError ClickUpResponse) (p : PullRequestPayload)
    (htok : truthy clickUpApiToken = true) (hlist : truthy lists.CODE_REVIEWS = true)
    (hapi : ∀ r, ∃ resp, api r = .ok resp) :
    ((p.action = "opened" ∨ p.action = "reopened") →
      ((p.pull_request.base.ref ≠ "main" ∧ p.pull_request.base.ref ≠ "master") →
        handlePullRequestEvent lists p = [])
      ∧ ((p.pull_request.base.ref = "main" ∨ p.pull_request.base.ref = "master") →
        (handlePullRequestEvent lists p).length = 1
        ∧ (∀ t ∈ handlePullRequestEvent lists p,
            t.tags = ["github", "pull-request", p.repository.name]
            ∧ t.listId = lists.CODE_REVIEWS)
        ∧ (runTasks clickUpApiToken api (handlePullRequestEvent lists p)).1.length = 1))
    ∧ ((p.action ≠ "opened" ∧ p.action ≠ "reopened") →
        handlePullRequestEvent lists p = []) := by
  constructor
  · intro hact
    have hact2 : ¬(p.action ≠ "opened" ∧ p.action ≠ "reopened") := by
      rcases hact with h | h <;> simp [h]
    constructor
    · intro hbase
      simp [handlePullRequestEvent, hact2, hbase]
    · intro hmain
      have hbase2 : ¬(p.pull_request.base.ref ≠ "main" ∧ p.pull_request.base.ref ≠ "master") := by
        rcases hmain with h | h <;> simp [h]
      have hh : handlePullRequestEvent lists p =
          [{ name := "Review PR #" ++ toString p.pull_request.number ++ ": " ++
                p.pull_request.title
             description := prTaskDescription p
             listId := lists.CODE_REVIEWS
             tags := ["github", "pull-request", p.repository.name] }] := by
        simp [handlePullRequestEvent, hact2, hbase2]
      refine ⟨by rw [hh]; rfl, ?_, ?_⟩
      · intro t ht
        rw [hh] at ht
        simp at ht
        subst ht
        exact ⟨rfl, rfl⟩
      · rw [hh]
        exact runTasks_single_req _ _ _ htok hlist hapi
  · intro hno
    simp [handlePullRequestEvent, hno]

theorem pull_request_handler_main_master_only_witness :
    handlePullRequestEvent sampleLists (samplePR "opened" "develop") = []
    ∧ (handlePullRequestEvent sampleLists (samplePR "opened" "main")).length = 1
    ∧ (runTasks (some "tok") sampleApiOk
        (handlePullRequestEvent sampleLists (samplePR "opened" "main"))).1.length = 1
    ∧ handlePullRequestEvent sampleLists (samplePR "closed" "main") = [] := by
  have h1 := pull_request_handler_main_master_only sampleLists (some "tok") sampleApiOk
      (samplePR "opened" "develop") (by decide) (by decide) (fun r => ⟨{ id := "id1" }, rfl⟩)
  have h2 := pull_request_handler_main_master_only sampleLists (some "tok") sampleApiOk
      (samplePR "opened" "main") (by decide) (by decide) (fun r => ⟨{ id := "id1" }, rfl⟩)
  have h3 := pull_request_handler_main_master_only sampleLists (some "tok") sampleApiOk
      (samplePR "closed" "main") (by decide) (by decide) (fun r => ⟨{ id := "id1" }, rfl⟩)
  exact ⟨(h1.1 (Or.inl rfl)).1 (by decide), ((h2.1 (Or.inl rfl)).2 (Or.inl rfl)).1,
    ((h2.1 (Or.inl rfl)).2 (Or.inl rfl)).2.2, h3.2 (by decide)⟩

/-- C5: for an issues event with action opened or reopened, an issue with no
label lower-casing to "stack" or "immortal-stack" yields no task record; an
issue with such a label yields exactly one, tagged
`[github, issue, <repo name>]` and destined for the dev-backlog list (one
outbound call when the client is configured and the API succeeds). -/
theorem issues_handler_stack_label_only (lists : ClickUpLists)
    (clickUpApiToken : Option String)
    (api : ClickUpRequest → Except ApiError ClickUpResponse) (p : IssuesPayload)
    (htok : truthy clickUpApiToken = true) (hlist : truthy lists.DEV_BACKLOG = true)
    (hapi : ∀ r, ∃ resp, api r = .ok resp)
    (hact : p.action = "opened" ∨ p.action = "reopened") :
    ((∀ l ∈ p.issue.labels,
        jsToLower l.name ≠ "stack" ∧ jsToLower l.name ≠ "immortal-stack") →
      handleIssuesEvent lists p = [])
    ∧ ((∃ l ∈ p.issue.labels,
        jsToLower l.name = "stack" ∨ jsToLower l.name = "immortal-stack") →
      (handleIssuesEvent lists p).length = 1
      ∧ (∀ t ∈ handleIssuesEvent lists p,
          t.tags = ["github", "issue", p.repository.name]
          ∧ t.listId = lists.DEV_BACKLOG)
      ∧ (runTasks clickUpApiToken api (handleIssuesEvent lists p)).1.length = 1) := by
  have hact2 : ¬(p.action ≠ "opened" ∧ p.action ≠ "reopened") := by
    rcases hact with h | h <;> simp [h]
  constructor
  · intro hno
    have hfalse : issueHasStackLabel p.issue = false := by
      rw [Bool.eq_false_iff]
      intro htrue
      obtain ⟨l, hl, hcase⟩ := (issueHasStackLabel_iff p.issue).mp htrue
      rcases hcase with h | h
      · exact (hno l hl).1 h
      · exact (hno l hl).2 h
    simp [handleIssuesEvent, hact2, hfalse]
  · intro hyes
    have htrue : issueHasStackLabel p.issue = true :=
      (issueHasStackLabel_iff p.issue).mpr hyes
    have hh : handleIssuesEvent lists p =
        [{ name := "GitHub Issue #" ++ toString p.issue.number ++ ": " ++ p.issue.title
           description := issueTaskDescription p
           listId := lists.DEV_BACKLOG
           tags := ["github", "issue", p.repository.name] }] := by
      simp [handleIssuesEvent, hact2, htrue]
    refine ⟨by rw [hh]; rfl, ?_, ?_⟩
    · intro t ht
      rw [hh] at ht
      simp at ht
      subst ht
      exact ⟨rfl, rfl⟩
    · rw [hh]
      exact runTasks_single_req _ _ _ htok hlist hapi

theorem issues_handler_stack_label_only_witness :
    handleIssuesEvent sampleLists (sampleIssue "opened" ["bug"]) = []
    ∧ (handleIssuesEvent sampleLists (sampleIssue "opened" ["bug", "Stack"])).length = 1
    ∧ (runTasks (some "tok") sampleApiOk
        (handleIssuesEvent sampleLists (sampleIssue "opened" ["bug", "Stack"]))).1.length = 1 := by
  have h1 := issues_handler_stack_label_only sampleLists (some "tok") sampleApiOk
      (sampleIssue "opened" ["bug"]) (by decide) (by decide)
      (fun r => ⟨{ id := "id1" }, rfl⟩) (Or.inl rfl)
  have h2 := issues_handler_stack_label_only sampleLists (some "tok") sampleApiOk
      (sampleIssue "opened" ["bug", "Stack"]) (by decide) (by decide)
      (fun r => ⟨{ id := "id1" }, rfl⟩) (Or.inl rfl)
  refine ⟨h1.1 (by decide), (h2.2 ?ex).1, (h2.2 ?ex).2.2⟩
  case ex =>
    refine ⟨{ name := "Stack" }, by decide, Or.inl (by decide)⟩

/-! ## Claims about the task client and the routes -/

/-- C9: with no configured API token, or no destination list identifier on
the task, `createClickUpTask` returns without throwing and issues no
outbound HTTP call; otherwise, when the external API fails, it logs the
error message (and the structured error body when one is present) and
propagates the error to its caller. -/
theorem clickup_task_client_noop_and_propagation (clickUpApiToken : Option String)
    (api : ClickUpRequest → Except ApiError ClickUpResponse) (t : ClickUpTask) :
    (truthy clickUpApiToken = false →
      createClickUpTask clickUpApiToken api t =
        ([], ["ClickUp integration not configured (missing API token)"], .ok none))
    ∧ (truthy clickUpApiToken = true → truthy t.listId = false →
      createClickUpTask clickUpApiToken api t =
        ([], ["ClickUp list ID not configured"], .ok none))
    ∧ (∀ e : ApiError, truthy clickUpApiToken = true → truthy t.listId = true →
      api (mkClickUpRequest clickUpApiToken t) = .error e →
      (createClickUpTask clickUpApiToken api t).1 = [mkClickUpRequest clickUpApiToken t]
      ∧ (createClickUpTask clickUpApiToken api t).2.2 = .error e
      ∧ ("Error creating ClickUp task: " ++ e.message) ∈
          (createClickUpTask clickUpApiToken api t).2.1
      ∧ (∀ d, e.responseData = some d →
          ("ClickUp API response: " ++ d) ∈ (createClickUpTask clickUpApiToken api t).2.1)) := by
  refine ⟨?_, ?_, ?_⟩
  · intro h
    simp [createClickUpTask, h]
  · intro h1 h2
    simp [createClickUpTask, h1, h2]
  · intro e h1 h2 herr
    have hc : createClickUpTask clickUpApiToken api t =
        ([mkClickUpRequest clickUpApiToken t],
          ("Error creating ClickUp task: " ++ e.message) ::
            (match e.responseData with
             | some d => ["ClickUp API response: " ++ d]
             | none => []),
          .error e) := by
      simp [createClickUpTask, h1, h2, herr]
    rw [hc]
    refine ⟨rfl, rfl, List.mem_cons_self _ _, ?_⟩
    intro d hd
    simp [hd]

theorem clickup_task_client_noop_and_propagation_witness :
    createClickUpTask none sampleApiOk sampleTaskA =
      ([], ["ClickUp integration not configured (missing API token)"], .ok none)
    ∧ createClickUpTask (some "tok") sampleApiOk sampleTaskB =
      ([], ["ClickUp list ID not configured"], .ok none)
    ∧ (createClickUpTask (some "tok") sampleApiErrData sampleTaskA).2.2 =
      .error { message := "boom", responseData := some "detail" }
    ∧ ("Error creating ClickUp task: " ++ "boom") ∈
      (createClickUpTask (some "tok") sampleApiErrData sampleTaskA).2.1
    ∧ ("ClickUp API response: " ++ "detail") ∈
      (createClickUpTask (some "tok") sampleApiErrData sampleTaskA).2.1 := by
  have h1 := clickup_task_client_noop_and_propagation none sampleApiOk sampleTaskA
  have h2 := clickup_task_client_noop_and_propagation (some "tok") sampleApiOk sampleTaskB
  have h3 := clickup_task_client_noop_and_propagation (some "tok") sampleApiErrData sampleTaskA
  have he := h3.2.2 { message := "boom", responseData := some "detail" }
      (by decide) (by decide) rfl
  exact ⟨h1.1 rfl, h2.2.1 (by decide) rfl, he.2.1, he.2.2.1, he.2.2.2 "detail" rfl⟩

/-- C6: once a request reaches event dispatch, an error thrown by the task
pipeline still produces an HTTP 200 whose body status is "error": on the
GitHub route via the catch inside `processGithubEvent`, and on the MAKE.com
route (after the token authenticator lets the request proceed) via the
try/catch around the scenario dispatch. Neither webhook route returns a 5xx
for such failures. -/
theorem webhook_routes_internal_error_yields_200
    (hmacSha256Hex : String → String → String)
    (githubWebhookSecret clickUpApiToken : Option String) (lists : ClickUpLists)
    (api : ClickUpRequest → Except ApiError ClickUpResponse)
    (sigHeader : Option String) (rawBody eventType : String) (payload : GithubPayload) :
    (∀ e : ApiError,
      verifyGithubSignature hmacSha256Hex githubWebhookSecret sigHeader rawBody = .ok true →
      (runTasks clickUpApiToken api (dispatchGithubEvent lists eventType payload)).2 =
        .error e →
      githubWebhookRoute hmacSha256Hex githubWebhookSecret clickUpApiToken lists api
          sigHeader rawBody eventType payload =
        .ok ({ status := 200, bodyStatus := "error",
               message := "Error processing GitHub event: " ++ e.message },
          (runTasks clickUpApiToken api (dispatchGithubEvent lists eventType payload)).1))
    ∧ (∀ (authToken makeWebhookSecret : Option String) (scenarioId : String) (err : JsError),
      authenticateWebhook authToken makeWebhookSecret = .proceed →
      makeWebhookRoute authToken makeWebhookSecret scenarioId (.error err) =
        ({ status := 200, bodyStatus := "error",
           message := "Webhook received but processing failed" }, true)) := by
  constructor
  · intro e hver herr
    have hpr : processGithubEvent clickUpApiToken lists api eventType payload =
        ((runTasks clickUpApiToken api (dispatchGithubEvent lists eventType payload)).1,
          { status := "error", message := "Error processing GitHub event: " ++ e.message }) := by
      simp [processGithubEvent, herr]
    simp [githubWebhookRoute, hver, hpr]
  · intro authToken makeWebhookSecret scenarioId err hauth
    simp [makeWebhookRoute, hauth]

theorem webhook_routes_internal_error_yields_200_witness :
    githubWebhookRoute toyMacHex none (some "tok") sampleLists sampleApiErr
        none "raw" "push" (.push samplePush) =
      .ok ({ status := 200, bodyStatus := "error",
             message := "Error processing GitHub event: " ++ "boom" },
        (runTasks (some "tok") sampleApiErr
          (dispatchGithubEvent sampleLists "push" (.push samplePush))).1)
    ∧ makeWebhookRoute (some "s") (some "s") "memory-harvest" (.error { message := "x" }) =
      ({ status := 200, bodyStatus := "error",
         message := "Webhook received but processing failed" }, true) := by
  have h := webhook_routes_internal_error_yields_200 toyMacHex none (some "tok") sampleLists
      sampleApiErr none "raw" "push" (.push samplePush)
  exact ⟨h.1 { message := "boom", responseData := none } rfl (by decide),
    h.2 (some "s") (some "s") "memory-harvest" { message := "x" } (by decide)⟩

/-- C7 counterexample: an empty-string token header value is a present
header value different from the configured secret, yet the middleware
answers 401 (missing token), not 403, because the JS guard `if (!authToken)`
also fires on the empty string. -/
theorem token_authenticator_counterexample :
    authenticateWebhook (some "") (some "s") = .reject 401 "Authentication token missing"
    ∧ authenticateWebhook (some "") (some "s") ≠ .reject 403 "Invalid authentication token" :=
  ⟨rfl, by decide⟩

/-- C7 (amended): an absent token header, or a present but empty one, is
answered 401 and the scenario router does not run; a present non-empty
header different from the configured secret is answered 403 and the router
does not run; a header equal to the configured secret lets the request
proceed to the scenario router. -/
theorem token_authenticator_amended (makeWebhookSecret : Option String)
    (scenarioId : String) (outcome : Except JsError Unit) :
    (authenticateWebhook none makeWebhookSecret = .reject 401 "Authentication token missing"
      ∧ (makeWebhookRoute none makeWebhookSecret scenarioId outcome).2 = false
      ∧ (makeWebhookRoute none makeWebhookSecret scenarioId outcome).1.status = 401)
    ∧ authenticateWebhook (some "") makeWebhookSecret =
        .reject 401 "Authentication token missing"
    ∧ (∀ t : String, t ≠ "" → some t ≠ makeWebhookSecret →
        authenticateWebhook (some t) makeWebhookSecret =
          .reject 403 "Invalid authentication token"
        ∧ (makeWebhookRoute (some t) makeWebhookSecret scenarioId outcome).2 = false
        ∧ (makeWebhookRoute (some t) makeWebhookSecret scenarioId outcome).1.status = 403)
    ∧ (∀ t : String, t ≠ "" → some t = makeWebhookSecret →
        authenticateWebhook (some t) makeWebhookSecret = .proceed
        ∧ (makeWebhookRoute (some t) makeWebhookSecret scenarioId outcome).2 = true) := by
  refine ⟨⟨rfl, rfl, rfl⟩, rfl, ?_, ?_⟩
  · intro t ht hne
    have h1 : truthy (some t) = true := (truthy_some_iff t).mpr ht
    have hauth : authenticateWebhook (some t) makeWebhookSecret =
        .reject 403 "Invalid authentication token" := by
      simp [authenticateWebhook, h1, hne]
    exact ⟨hauth, by simp [makeWebhookRoute, hauth], by simp [makeWebhookRoute, hauth]⟩
  · intro t ht heq
    have h1 : truthy (some t) = true := (truthy_some_iff t).mpr ht
    have hauth : authenticateWebhook (some t) makeWebhookSecret = .proceed := by
      simp [authenticateWebhook, h1, ← heq]
    refine ⟨hauth, ?_⟩
    cases outcome with
    | ok u => simp [makeWebhookRoute, hauth]
    | error err => simp [makeWebhookRoute, hauth]

theorem token_authenticator_amended_witness :
    authenticateWebhook none (some "s") = .reject 401 "Authentication token missing"
    ∧ (makeWebhookRoute none (some "s") "sid" (.ok ())).2 = false
    ∧ authenticateWebhook (some "w") (some "s") = .reject 403 "Invalid authentication token"
    ∧ (makeWebhookRoute (some "w") (some "s") "sid" (.ok ())).2 = false
    ∧ authenticateWebhook (some "s") (some "s") = .proceed
    ∧ (makeWebhookRoute (some "s") (some "s") "sid" (.ok ())).2 = true := by
  have h := token_authenticator_amended (some "s") "sid" (.ok ())
  exact ⟨h.1.1, h.1.2.1, (h.2.2.1 "w" (by decide) (by decide)).1,
    (h.2.2.1 "w" (by decide) (by decide)).2.1,
    (h.2.2.2 "s" (by decide) rfl).1, (h.2.2.2 "s" (by decide) rfl).2⟩

/-- C10 counterexample: the empty-string header value is present and its
byte length 0 differs from 71, yet the verifier returns false rather than
throwing, because the JS falsiness guard `if (!signature)` treats an empty
header value like a missing one. -/
theorem signature_length_mismatch_counterexample :
    (strBytes "").length ≠ 71
    ∧ verifyGithubSignature toyMacHex (some "secret") (some "") "x" = .ok false :=
  ⟨by decide, by decide⟩

/-- C10 (amended): with a configured secret, every present non-empty
signature header value whose byte length differs from the 71 bytes of the
computed `sha256=<hex>` digest makes `verifyGithubSignature` throw (the
`timingSafeEqual` length exception) instead of returning false; the call
sits outside the route try/catch, so the escaped exception is answered by
the generic 500 error middleware rather than the 401 invalid-signature
response. -/
theorem signature_length_mismatch_throws_amended
    (hmacSha256Hex : String → String → String) (sec sig rawBody : String)
    (clickUpApiToken : Option String) (lists : ClickUpLists)
    (api : ClickUpRequest → Except ApiError ClickUpResponse)
    (eventType : String) (payload : GithubPayload)
    (hsec : sec ≠ "") (hsig : sig ≠ "")
    (hlen : (strBytes (hmacSha256Hex sec rawBody)).length = 64)
    (hne : (strBytes sig).length ≠ 71) :
    verifyGithubSignature hmacSha256Hex (some sec) (some sig) rawBody =
      .error .lengthMismatch
    ∧ serverHandle (githubWebhookRoute hmacSha256Hex (some sec) clickUpApiToken lists api
        (some sig) rawBody eventType payload) =
      { status := 500, bodyStatus := "error", message := "An internal server error occurred" }
    ∧ serverHandle (githubWebhookRoute hmacSha256Hex (some sec) clickUpApiToken lists api
        (some sig) rawBody eventType payload) ≠
      { status := 401, bodyStatus := "error", message := "Invalid signature" } := by
  have hver : verifyGithubSignature hmacSha256Hex (some sec) (some sig) rawBody =
      .error .lengthMismatch := by
    rw [verify_unfold hmacSha256Hex sec hsec sig hsig rawBody]
    apply timingSafeEqual_len
    rw [strBytes_append, List.length_append, strBytes_sha_len, hlen]
    omega
  have hroute : githubWebhookRoute hmacSha256Hex (some sec) clickUpApiToken lists api
      (some sig) rawBody eventType payload = .error .lengthMismatch := by
    simp [githubWebhookRoute, hver]
  refine ⟨hver, by rw [hroute]; rfl, by rw [hroute]; decide⟩

theorem signature_length_mismatch_throws_amended_witness :
    verifyGithubSignature toyMacHex (some "s") (some "sha256=short") "a" =
      .error .lengthMismatch
    ∧ serverHandle (githubWebhookRoute toyMacHex (some "s") (some "tok") sampleLists
        sampleApiOk (some "sha256=short") "a" "push" (.push samplePush)) =
      { status := 500, bodyStatus := "error",
        message := "An internal server error occurred" } := by
  have h := signature_length_mismatch_throws_amended toyMacHex "s" "sha256=short" "a"
      (some "tok") sampleLists sampleApiOk "push" (.push samplePush)
      (by decide) (by decide) (by decide) (by decide)
  exact ⟨h.1, h.2.1⟩

end ImmortalStack
